import Mathlib

/-!
Formal model of the core RAG backend of the `ncert-working` repository
(FastAPI application under `backend/app`): response cache lookup
(`db/mongodb.py`), namespace-partitioned vector retrieval (`db/pinecone.py`),
the query pipeline (`services/rag_service.py`, `api/chat.py`), the
completion-provider retry logic (`services/llm_service.py`), and document
ingestion (`services/document_processor.py`).

Modelling conventions:
- Python `str` is modelled as `List Char` (`PyStr`); `len`, slicing,
  `strip`, `lower`, `split`, `replace` are modelled by executable list
  functions below that mirror CPython semantics for the inputs the code uses.
- Python floats (similarity scores, the 0.3 language-detection ratio) are
  modelled as rationals; the comparisons performed by the code translate
  directly.
- Async I/O collaborators (Mongo store, Pinecone index, the LLM HTTP call)
  are passed in as explicit data: the cache is a list of entries, the index
  a function from namespace to a result-or-error, the LLM a function from
  prompt to text.  Side-effecting calls are recorded in an explicit event
  trace so that "X was not called" is a statement about the trace.
-/

/-- Python `str` as a list of code points. -/
abbrev PyStr := List Char

/-- Whitespace as recognised by Python `str.strip()` (ASCII range). -/
def pyIsSpace (c : Char) : Bool :=
  c == ' ' || c == '\t' || c == '\n' || c == '\r' || c == '\x0b' || c == '\x0c'

/-- Python `s.strip()`. -/
def pyStrip (s : PyStr) : PyStr :=
  ((s.dropWhile pyIsSpace).reverse.dropWhile pyIsSpace).reverse

/-- Python `s.lower()` (ASCII case mapping). -/
def pyLower (s : PyStr) : PyStr := s.map Char.toLower

/-- Worker for `pySplit`; `fuel` bounds recursion depth and is always
called with at least the length of the remaining input. -/
def pySplitGo (sep : PyStr) : ℕ → PyStr → PyStr → List PyStr
  | _, [], acc => [acc.reverse]
  | 0, rest, acc => [acc.reverse ++ rest]
  | fuel+1, c :: rest, acc =>
    if sep.isPrefixOf (c :: rest) then
      acc.reverse :: pySplitGo sep fuel (List.drop (sep.length - 1) rest) []
    else
      pySplitGo sep fuel rest (c :: acc)

/-- Python `s.split(sep)` for non-empty `sep`: split on each non-overlapping
occurrence of `sep`, left to right. -/
def pySplit (sep s : PyStr) : List PyStr :=
  if sep = [] then [s] else pySplitGo sep s.length s []

/-- Worker for `pyReplace`; same fuel discipline as `pySplitGo`. -/
def pyReplaceGo (old new : PyStr) : ℕ → PyStr → PyStr
  | _, [] => []
  | 0, rest => rest
  | fuel+1, c :: rest =>
    if old.isPrefixOf (c :: rest) then
      new ++ pyReplaceGo old new fuel (List.drop (old.length - 1) rest)
    else
      c :: pyReplaceGo old new fuel rest

/-- Python `s.replace(old, new)`: replace every non-overlapping occurrence,
left to right. -/
def pyReplace (old new s : PyStr) : PyStr :=
  if old = [] then new ++ s.flatMap (fun c => c :: new)
  else pyReplaceGo old new s.length s

/-- Decimal rendering of a natural number, as used by f-string interpolation
of a non-negative integer. -/
def natToStr (n : ℕ) : PyStr := Nat.toDigits 10 n

/-!
## Response cache (`backend/app/db/mongodb.py`)

The `chat_cache` Mongo collection is modelled as a list of entries; the
unique index on `question_hash` is an invariant of the store, not needed for
the claims below.  `get_cached_response` issues
`find_one({"question_hash": h, "is_valid": True})` — note that it does not
constrain `expires_at`; expiry is only enforced by the TTL index
(`expireAfterSeconds=0` on `expires_at`), i.e. by background deletion.
-/

/-- One source citation dict as built by `RAGService._format_sources` and
stored with cache entries.  `sclass` models the `"class"` key (a Lean
keyword); `relevance` models `int(score * 100)` (the trailing `"%"` of the
formatted string is dropped from the model). -/
structure ChatSource where
  stype : PyStr
  name : PyStr
  sclass : PyStr
  subject : PyStr
  chapter : PyStr
  page : Option ℤ
  relevance : ℤ
deriving DecidableEq, Repr

/-- One document of the `chat_cache` collection.  Timestamps are integers
(e.g. epoch seconds); the code only ever stores and compares them. -/
structure CacheEntry where
  question_hash : PyStr
  question : PyStr
  answer : PyStr
  sources : List ChatSource
  is_valid : Bool
  created_at : ℤ
  expires_at : ℤ
  hit_count : ℕ
deriving DecidableEq, Repr

/-- `get_cached_response` (mongodb.py lines 227-234): the `find_one` filter
matches on `question_hash` and `is_valid == True` only. -/
def get_cached_response (question_hash : PyStr) (store : List CacheEntry) :
    Option CacheEntry :=
  store.find? (fun e => e.question_hash == question_hash && e.is_valid)

/-!
## RAG service (`backend/app/services/rag_service.py`)
-/

/-- The three settings read by `RAGService.__init__` from `config.py`
(defaults: 0.7, 5, 3). -/
structure RagConfig where
  min_relevance_score : ℚ
  top_k : ℕ
  rerank_top_k : ℕ
deriving DecidableEq, Repr

/-- One formatted retrieval match, as returned by `query_vectors`
(pinecone.py lines 174-186) and consumed by `process_query`. -/
structure RResult where
  rid : PyStr
  score : ℚ
  text : PyStr
  class_num : PyStr
  subject : PyStr
  chapter : PyStr
  source_file : PyStr
  page : Option ℤ
deriving DecidableEq, Repr

/-- `RAGService._detect_language`: count Devanagari (U+0900-U+097F) and
Arabic (U+0600-U+06FF) code points; a share above 0.3 selects "hi"
resp. "ur", else "en". -/
def detect_language (text : PyStr) : PyStr :=
  let hindi_chars := text.countP (fun c => decide ('ऀ' ≤ c ∧ c ≤ 'ॿ'))
  let urdu_chars := text.countP (fun c => decide ('؀' ≤ c ∧ c ≤ 'ۿ'))
  let total := text.length
  if total = 0 then ("en").toList
  else if (hindi_chars : ℚ) / (total : ℚ) > 3/10 then ("hi").toList
  else if (urdu_chars : ℚ) / (total : ℚ) > 3/10 then ("ur").toList
  else ("en").toList

/-- The English refusal text of `RAGService._get_out_of_scope_response`. -/
def out_of_scope_en : PyStr :=
  ("I don't have enough information in my NCERT knowledge base to answer this question accurately. Please try asking about topics covered in NCERT textbooks for grades 5-12.").toList

/-- The Hindi refusal text. -/
def out_of_scope_hi : PyStr :=
  ("मेरे पास इस प्रश्न का सटीक उत्तर देने के लिए NCERT पाठ्यपुस्तकों में पर्याप्त जानकारी नहीं है। कृपया कक्षा 5-12 की NCERT पुस्तकों में शामिल विषयों के बारे में पूछें।").toList

/-- The Urdu refusal text. -/
def out_of_scope_ur : PyStr :=
  ("میرے پاس اس سوال کا درست جواب دینے کے لیے NCERT نصابی کتابوں میں کافی معلومات نہیں ہیں۔ براہ کرم جماعت 5-12 کی NCERT کتابوں میں شامل موضوعات کے بارے میں پوچھیں۔").toList

/-- `RAGService._get_out_of_scope_response`: `responses.get(language,
responses["en"])`. -/
def get_out_of_scope_response (language : PyStr) : PyStr :=
  if language = ("hi").toList then out_of_scope_hi
  else if language = ("ur").toList then out_of_scope_ur
  else out_of_scope_en

/-- Step 4 of `process_query`: keep results with
`r["score"] >= min_relevance_score`. -/
def relevant_results (cfg : RagConfig) (results : List RResult) : List RResult :=
  results.filter (fun r => decide (cfg.min_relevance_score ≤ r.score))

/-- `RAGService._format_sources`, one element. -/
def format_source (r : RResult) : ChatSource :=
  { stype := ("ncert_textbook").toList
    name := r.subject ++ (" - ").toList ++ r.chapter
    sclass := ("Class ").toList ++ r.class_num
    subject := r.subject
    chapter := r.chapter
    page := r.page
    relevance := ⌊r.score * 100⌋ }

/-- `RAGService._format_sources`. -/
def format_sources (results : List RResult) : List ChatSource :=
  results.map format_source

/-- The list of results that feed the context string: the filtered list,
truncated to `rerank_top_k` (`_build_context` iterates
`results[:self.rerank_top_k]`). -/
def context_results (cfg : RagConfig) (results : List RResult) : List RResult :=
  (relevant_results cfg results).take cfg.rerank_top_k

/-- `RAGService._build_context`: `[Source i: Class c, subj, chap]` headers
(1-based `i`), each followed by the chunk text, joined by `\n\n---\n\n`. -/
def build_context (cfg : RagConfig) (relevant : List RResult) : PyStr :=
  List.intercalate (("\n\n---\n\n").toList)
    ((relevant.take cfg.rerank_top_k).mapIdx (fun i r =>
      ("[Source ").toList ++ natToStr (i+1) ++ (": Class ").toList ++ r.class_num
        ++ (", ").toList ++ r.subject ++ (", ").toList ++ r.chapter
        ++ ("]\n").toList ++ r.text))

/-- Observable collaborator calls of one request, recorded in order:
the cache read, the Pinecone retrieval, the LLM generation call. -/
inductive CallEvent where
  | cacheGet : CallEvent
  | retrieve : CallEvent
  | llmGenerate : PyStr → CallEvent
deriving DecidableEq, Repr

/-- Whether an event is an invocation of the completion provider. -/
def CallEvent.isGenerate : CallEvent → Bool
  | .llmGenerate _ => true
  | _ => false

/-- The per-request environment: what `get_cached_response` returns for this
query's hash, and what `query_vectors` returns for this query. -/
structure QueryEnv where
  cached : Option CacheEntry
  retrieved : List RResult

/-- Steps 2-7 of `RAGService.process_query` (the path taken on a cache miss
or with `use_cache=False`): detect language, retrieve, filter by relevance,
and either return the localized refusal with no sources and
`in_scope=False`, or the built context, formatted sources and
`in_scope=True`.  (The conversation-history lookup of steps 8 is dead code
for the returned triple: `conversation_context` is never used.) -/
def process_retrieval (cfg : RagConfig) (env : QueryEnv) (query : PyStr) :
    (PyStr × List ChatSource × Bool) × List CallEvent :=
  let detected_language := detect_language query
  let relevant := relevant_results cfg env.retrieved
  if relevant = [] then
    ((get_out_of_scope_response detected_language, [], false), [.retrieve])
  else
    ((build_context cfg relevant, format_sources relevant, true), [.retrieve])

/-- `RAGService.process_query`: on `use_cache` first consult the cache; a hit
returns `(cached["answer"], cached["sources"], True)` immediately, without
retrieval. -/
def process_query (cfg : RagConfig) (env : QueryEnv) (query : PyStr)
    (use_cache : Bool) : (PyStr × List ChatSource × Bool) × List CallEvent :=
  if use_cache then
    match env.cached with
    | some c => ((c.answer, c.sources, true), [.cacheGet])
    | none =>
      let r := process_retrieval cfg env query
      (r.1, .cacheGet :: r.2)
  else process_retrieval cfg env query

/-!
## Chat endpoint (`backend/app/api/chat.py`)

Model of the successful RAG path of the `chat` handler (lines 56-106): run
`process_query` (with its default `use_cache=True` — the call site does not
pass `use_cache`), build the prompt from the returned context, and invoke
`llm_service.generate(prompt)` unconditionally.  The `RuntimeError` /
generic-exception fallback prompts (Pinecone unavailable) are outside the
claims and not modelled.
-/

/-- The fixed instructional preamble of `RAGService.build_prompt`, up to and
including the `CONTEXT FROM NCERT TEXTBOOKS:` header line. -/
def prompt_preamble : PyStr :=
  ("You are an expert NCERT tutor specializing in helping students from grades 5-12 with Mathematics, Physics, Chemistry, Biology, and other subjects.\n\nIMPORTANT GUIDELINES FOR STEM SUBJECTS:\n- For MATH problems: Show step-by-step solutions, write formulas clearly, explain each step\n- For PHYSICS: State relevant formulas, units, and show calculations\n- For CHEMISTRY: Include chemical equations, molecular formulas, and reaction mechanisms\n- For BIOLOGY: Use proper scientific terminology and diagrams descriptions\n\nCONTEXT FROM NCERT TEXTBOOKS:\n").toList

/-- The fixed instruction footer of `RAGService.build_prompt`, from the
blank line after the question to the end. -/
def prompt_footer : PyStr :=
  ("\n\nINSTRUCTIONS:\n1. Answer ONLY based on the NCERT content provided above\n2. For formulas and equations, write them clearly (e.g., E = mc², H₂O, F = ma)\n3. Show step-by-step solutions for numerical problems\n4. Use simple language appropriate for students\n5. Cite your sources using [Source 1], [Source 2], etc.\n6. If the question involves calculations, show the complete working\n7. If information is not in the context, say \"This topic is not covered in the provided NCERT content\"\n\nYOUR DETAILED ANSWER:").toList

/-- `RAGService.build_prompt`: preamble, context block, optional
conversation-history block, the verbatim question, fixed footer. -/
def build_prompt (query context conversation_history : PyStr) : PyStr :=
  prompt_preamble ++ context ++ ("\n\n").toList ++
    (if conversation_history ≠ [] then
      ("PREVIOUS CONVERSATION:\n").toList ++ conversation_history ++ ("\n\n").toList
    else []) ++
    ("STUDENT QUESTION:\n").toList ++ query ++ prompt_footer

/-- The successful path of the `chat` endpoint: `process_query` (default
`use_cache=True`), then `build_prompt` (no conversation history is passed at
this call site), then `llm_service.generate(prompt)`.  Returns the response
text, the sources, and the event trace. -/
def chat_handler (cfg : RagConfig) (env : QueryEnv) (query : PyStr)
    (generate : PyStr → PyStr) : (PyStr × List ChatSource) × List CallEvent :=
  let r := process_query cfg env query true
  let prompt := build_prompt query r.1.1 []
  let response_text := generate prompt
  ((response_text, r.1.2.1), r.2 ++ [.llmGenerate prompt])

/-!
## Completion provider (`backend/app/services/llm_service.py`)

`GeminiService.generate` runs a loop of `max_retries = 3` attempts.  Each
attempt's transport outcome is supplied as a function from the attempt
number to an outcome; the loop is modelled with the attempt counter and the
number of remaining loop iterations.
-/

/-- The transport outcome of one Gemini HTTP attempt. -/
inductive GenOutcome where
  | ok : PyStr → GenOutcome
  | okEmpty : GenOutcome
  | rateLimited : GenOutcome
  | httpError : ℕ → GenOutcome
  | timeout : GenOutcome
  | exn : GenOutcome
deriving DecidableEq, Repr

/-- What a call to `generate` does: return a string, or propagate an
exception. -/
inductive GenResult where
  | returns : PyStr → GenResult
  | raises : GenResult
deriving DecidableEq, Repr

/-- `GeminiService.generate` line 97. -/
def msg_not_configured : PyStr :=
  ("I'm sorry, the AI service is not configured properly. Please contact the administrator to set up the GEMINI_API_KEY.").toList

/-- Gemini rate-limit exhaustion message (line 127). -/
def msg_high_demand : PyStr :=
  ("I'm currently experiencing high demand. Please wait a moment and try again.").toList

/-- Gemini HTTP-400 message (line 144). -/
def msg_rephrase : PyStr :=
  ("I couldn't process that request. Please try rephrasing your question.").toList

/-- Gemini timeout exhaustion message (line 154). -/
def msg_too_long : PyStr :=
  ("The AI service is taking too long to respond. Please try again.").toList

/-- Gemini empty-candidates message (line 139). -/
def msg_unable : PyStr := ("Unable to generate response").toList

/-- Gemini post-loop message (line 163, unreachable). -/
def msg_exhausted : PyStr :=
  ("Unable to generate response after multiple attempts.").toList

/-- `max_retries` in `GeminiService.generate`. -/
def max_retries : ℕ := 3

/-- The `for attempt in range(max_retries)` loop of `GeminiService.generate`.
`attempt` is the current index, `remaining` the number of iterations left
(initially `max_retries`; the two are linked by `attempt + remaining = 3`).
Per attempt: HTTP 429 retries while `attempt < max_retries - 1`, else
returns the high-demand message; an HTTP status error returns the rephrase
message for 400, else retries then re-raises; a timeout retries while
`attempt < max_retries - 1`, else returns the too-long message; any other
exception retries then re-raises. -/
def gemini_generate_loop (outcomes : ℕ → GenOutcome) :
    ℕ → ℕ → GenResult
  | _, 0 => .returns msg_exhausted
  | attempt, remaining+1 =>
    match outcomes attempt with
    | .ok t => .returns t
    | .okEmpty => .returns msg_unable
    | .rateLimited =>
      if attempt < max_retries - 1 then
        gemini_generate_loop outcomes (attempt+1) remaining
      else .returns msg_high_demand
    | .httpError code =>
      if code = 400 then .returns msg_rephrase
      else if attempt < max_retries - 1 then
        gemini_generate_loop outcomes (attempt+1) remaining
      else .raises
    | .timeout =>
      if attempt < max_retries - 1 then
        gemini_generate_loop outcomes (attempt+1) remaining
      else .returns msg_too_long
    | .exn =>
      if attempt < max_retries - 1 then
        gemini_generate_loop outcomes (attempt+1) remaining
      else .raises

/-- `GeminiService.generate`: unconfigured key short-circuits to a
user-facing message, otherwise the retry loop runs. -/
def gemini_generate (api_key_configured : Bool) (outcomes : ℕ → GenOutcome) :
    GenResult :=
  if api_key_configured then gemini_generate_loop outcomes 0 max_retries
  else .returns msg_not_configured

/-!
## Vector store (`backend/app/db/pinecone.py`)
-/

/-- `get_namespace`: falsy subject (None or "") maps to "general", otherwise
`subject.lower().replace(" ", "_").replace("-", "_")`. -/
def get_namespace (subject : Option PyStr) : PyStr :=
  match subject with
  | none => ("general").toList
  | some s =>
    if s = [] then ("general").toList
    else pyReplace (("-").toList) (("_").toList)
           (pyReplace ((" ").toList) (("_").toList) (pyLower s))

/-- `namespaces_to_query` in `query_vectors` (line 155): the default
namespace (queried as `namespace=None`, modelled by `[]` here) plus the
fixed list of subject namespaces. -/
def namespaces_to_query : List PyStr :=
  [[], ("mathematics").toList, ("science").toList, ("physics").toList,
    ("chemistry").toList, ("biology").toList, ("english").toList,
    ("social_science").toList]

/-- `namespace=ns if ns else None` at the Pinecone call site. -/
def ns_arg (ns : PyStr) : Option PyStr := if ns = [] then none else some ns

/-- The no-subject fan-out of `query_vectors` (lines 153-171): query every
namespace in `namespaces_to_query` with `top_k=3`, skipping namespaces whose
query raises (`except: pass`), concatenate the matches, sort descending by
score (CPython's stable sort with `reverse=True`), truncate to `top_k`.
`index_query ns k` is the Pinecone index call for namespace `ns` with
`top_k=k`; `.error` models a raised exception.  Returns the result list and
the list of `(namespace, top_k)` requests issued. -/
def query_vectors_fanout
    (index_query : Option PyStr → ℕ → Except Unit (List RResult))
    (top_k : ℕ) : List RResult × List (Option PyStr × ℕ) :=
  let calls := namespaces_to_query.map (fun ns => (ns_arg ns, 3))
  let all_results := namespaces_to_query.flatMap (fun ns =>
    match index_query (ns_arg ns) 3 with
    | .ok ms => ms
    | .error _ => [])
  let sorted := all_results.mergeSort (fun a b => decide (b.score ≤ a.score))
  ((sorted.take top_k), calls)

/-!
## Document ingestion (`backend/app/services/document_processor.py` and
`add_documents` in `backend/app/db/pinecone.py`)
-/

/-- The separator inserted before image-OCR text in `process_document`. -/
def sep_images : PyStr := ("\n\n--- Extracted from Images ---\n\n").toList

/-- Lines 62-71 of `process_document`: if `len(native_text.strip()) < 500`
the full-page OCR output *replaces* the text (`text_content = ocr_text`);
otherwise the native text is kept and non-empty image-OCR text is appended
under the separator.  The boolean records whether `full_page_ocr` ran. -/
def combine_extracted_text (native_text image_text ocr_text : PyStr) :
    PyStr × Bool :=
  if (pyStrip native_text).length < 500 then (ocr_text, true)
  else
    (native_text ++ (if image_text ≠ [] then sep_images ++ image_text else []),
      false)

/-- The sentence split of an over-long paragraph in `chunk_text`:
`para.replace('. ', '.\n').split('\n')`. -/
def sentences_of (para : PyStr) : List PyStr :=
  pySplit (("\n").toList) (pyReplace ((". ").toList) ((".\n").toList) para)

/-- The inner sentence loop body of `chunk_text`: flush the running buffer
when adding the sentence would exceed `chunk_size`, else append with a
single-space joiner (the joiner's length is not counted by the guard). -/
def sent_step (chunk_size : ℕ) (st : List PyStr × PyStr) (sentence : PyStr) :
    List PyStr × PyStr :=
  if chunk_size < st.2.length + sentence.length then
    ((if st.2 ≠ [] then st.1 ++ [pyStrip st.2] else st.1), sentence)
  else
    (st.1, if st.2 ≠ [] then st.2 ++ (" ").toList ++ sentence else sentence)

/-- The paragraph loop body of `chunk_text`: skip blank paragraphs; if the
paragraph fits, append it to the buffer with a `"\n\n"` joiner (again not
counted by the guard); otherwise flush the buffer and either start a new
buffer with the paragraph or, if the paragraph alone exceeds `chunk_size`,
run the sentence loop over it. -/
def para_step (chunk_size : ℕ) (st : List PyStr × PyStr) (para0 : PyStr) :
    List PyStr × PyStr :=
  if pyStrip para0 = [] then st
  else if chunk_size < st.2.length + (pyStrip para0).length then
    if chunk_size < (pyStrip para0).length then
      (sentences_of (pyStrip para0)).foldl (sent_step chunk_size)
        ((if st.2 ≠ [] then st.1 ++ [pyStrip st.2] else st.1), [])
    else ((if st.2 ≠ [] then st.1 ++ [pyStrip st.2] else st.1), pyStrip para0)
  else
    (st.1,
      if st.2 ≠ [] then st.2 ++ ("\n\n").toList ++ pyStrip para0
      else pyStrip para0)

/-- `text.strip().split('\n\n')` at the top of `chunk_text`. -/
def paragraphs_of (text : PyStr) : List PyStr :=
  pySplit (("\n\n").toList) (pyStrip text)

/-- `chunk_text` before the overlap pass: empty input yields `[]`, otherwise
the greedy paragraph/sentence accumulation, with the final buffer flushed. -/
def chunk_segments (text : PyStr) (chunk_size : ℕ) : List PyStr :=
  if text = [] then []
  else
    if ((paragraphs_of text).foldl (para_step chunk_size) ([], [])).2 ≠ [] then
      ((paragraphs_of text).foldl (para_step chunk_size) ([], [])).1
        ++ [pyStrip ((paragraphs_of text).foldl (para_step chunk_size) ([], [])).2]
    else ((paragraphs_of text).foldl (para_step chunk_size) ([], [])).1

/-- Python `s[-n:]` for `n > 0`: the last `min n (length s)` characters. -/
def take_last (n : ℕ) (l : PyStr) : PyStr := l.drop (l.length - n)

/-- The overlap pass of `chunk_text`: every chunk after the first is
prefixed with the last `overlap` characters of the *original* previous
chunk plus a space. -/
def add_overlap (overlap : ℕ) (chunks : List PyStr) : List PyStr :=
  chunks.mapIdx (fun i c =>
    if i = 0 then c
    else take_last overlap (chunks.getD (i-1) []) ++ (" ").toList ++ c)

/-- `chunk_text(text, chunk_size, overlap)` (document_processor.py lines
302-373). -/
def chunk_text (text : PyStr) (chunk_size : ℕ) (overlap : ℕ) : List PyStr :=
  let chunks := chunk_segments text chunk_size
  if 0 < overlap ∧ 1 < chunks.length then add_overlap overlap chunks
  else chunks

/-- One element of the `chunks` argument of `add_documents`: the formatted
dict `{"text": ..., "page": ...}` built in `process_document`. -/
structure ChunkIn where
  text : PyStr
  page : Option ℤ
deriving DecidableEq, Repr, Inhabited

/-- One Pinecone vector record as built by `add_documents`; `values` is the
embedding, `text` the metadata text field. -/
structure VectorRecord where
  vid : PyStr
  values : List ℚ
  text : PyStr
  class_num : PyStr
  subject : PyStr
  chapter : PyStr
  source_file : PyStr
  page : Option ℤ
  chunk_index : ℕ
deriving DecidableEq, Repr, Inhabited

/-- `f"{source_file}_{standard}_{chapter}_{i}".replace(" ", "_")`. -/
def vector_id (source_file standard chapter : PyStr) (i : ℕ) : PyStr :=
  pyReplace ((" ").toList) (("_").toList)
    (source_file ++ ("_").toList ++ standard ++ ("_").toList ++ chapter
      ++ ("_").toList ++ natToStr i)

/-- The `for i, chunk in enumerate(chunks)` loop of `add_documents` (lines
231-254), starting at index `i`.  The metadata `text` is `text[:8000]`
(the Pinecone metadata limit); `class_num` is `str(standard)`. -/
def add_documents_go (emb : PyStr → List ℚ)
    (standard subject chapter source_file : PyStr) (i : ℕ) :
    List ChunkIn → List VectorRecord
  | [] => []
  | ch :: rest =>
    { vid := vector_id source_file standard chapter i
      values := emb ch.text
      text := ch.text.take 8000
      class_num := standard
      subject := subject
      chapter := chapter
      source_file := source_file
      page := ch.page
      chunk_index := i } ::
      add_documents_go emb standard subject chapter source_file (i+1) rest

/-- The full vector list built by `add_documents` (the subsequent upsert
writes exactly these records, in batches, to the subject's namespace). -/
def add_documents_vectors (emb : PyStr → List ℚ) (chunks : List ChunkIn)
    (standard subject chapter source_file : PyStr) : List VectorRecord :=
  add_documents_go emb standard subject chapter source_file 0 chunks

/-!
## Claim C1 — cache `get` and expiry
-/

/-- A stored entry that is still marked valid but whose `expires_at` (100)
lies in the past relative to a current time of 200. -/
def cacheEntryExpired : CacheEntry :=
  { question_hash := ("h1").toList
    question := ("what is gravity").toList
    answer := ("cached answer").toList
    sources := []
    is_valid := true
    created_at := 0
    expires_at := 100
    hit_count := 0 }

/-!
## Claim C2 — cache hit: retrieval skipped, but generation still runs
-/

/-- Default settings values from `config.py`. -/
def ragConfigDefault : RagConfig :=
  { min_relevance_score := mkRat 7 10, top_k := 5, rerank_top_k := 3 }

/-- A concrete source citation, as cached for scenario C. -/
def physicsSource : ChatSource :=
  { stype := ("ncert_textbook").toList
    name := ("Physics - Laws of Motion").toList
    sclass := ("Class 11").toList
    subject := ("Physics").toList
    chapter := ("Laws of Motion").toList
    page := some 98
    relevance := 91 }

/-- A valid cached entry for the scenario-C query. -/
def cachedPhysicsEntry : CacheEntry :=
  { question_hash := ("h2").toList
    question := ("state newtons laws").toList
    answer := ("Newtons three laws of motion, as cached").toList
    sources := [physicsSource]
    is_valid := true
    created_at := 0
    expires_at := 864000
    hit_count := 4 }

/-- The per-request environment with a cache hit (what the retriever would
return is irrelevant and empty here). -/
def envCached : QueryEnv := { cached := some cachedPhysicsEntry, retrieved := [] }

/-!
## Claims C3, C4 — relevance filtering and the out-of-scope refusal
-/

/-- A retrieval candidate below the default 0.7 threshold. -/
def lowScoreResult : RResult :=
  { rid := ("v1").toList
    score := mkRat 1 2
    text := ("photosynthesis basics").toList
    class_num := ("7").toList
    subject := ("Science").toList
    chapter := ("Nutrition in Plants").toList
    source_file := ("sci7.pdf").toList
    page := some 10 }

/-- A retrieval candidate above the default 0.7 threshold. -/
def highScoreResult : RResult :=
  { rid := ("v2").toList
    score := mkRat 9 10
    text := ("laws of motion text").toList
    class_num := ("11").toList
    subject := ("Physics").toList
    chapter := ("Laws of Motion").toList
    source_file := ("phy11.pdf").toList
    page := some 42 }

/-- Environment for a query with no sufficiently relevant match. -/
def envNoMatch : QueryEnv := { cached := none, retrieved := [lowScoreResult] }

/-!
## Claim C6 — Gemini timeout retry count
-/

/-!
## Claim C7 — no-subject fan-out
-/

/-- A concrete index oracle: the default namespace has one low-score match,
`physics` one high-score match, `chemistry` raises, every other namespace
is empty. -/
def fanoutIndexExample : Option PyStr → ℕ → Except Unit (List RResult) :=
  fun ns _k =>
    if ns = none then .ok [lowScoreResult]
    else if ns = some (("physics").toList) then .ok [highScoreResult]
    else if ns = some (("chemistry").toList) then .error ()
    else .ok []

/-!
## Claim C8 — full-page OCR trigger
-/

/-!
## Claim C9 — namespace normalization
-/

/-- The spec-side description of namespace normalization: lowercase, then
map each space and hyphen to an underscore. -/
def namespace_spec (s : PyStr) : PyStr :=
  (pyLower s).map (fun c => if c = ' ' ∨ c = '-' then '_' else c)

/-!
## Claim C10 — metadata text truncation at ingestion
-/

/-!
## Claim C5 — chunker size bound

The guards of `chunk_text` compare `len(current_chunk) + len(next piece)`
against `chunk_size` but do not count the joiner that is subsequently
inserted (`"\n\n"` between paragraphs, `" "` between sentences), so an
accumulated chunk can exceed `chunk_size` by up to 2 even when every single
paragraph and sentence fits.  The invariant below captures what does hold.
-/

/-- A produced chunk is fine: within `chunk_size + 2`, or the strip of a
single over-long sentence (`P` identifies the sentences of the text). -/
def chunk_ok (chunk_size : ℕ) (P : PyStr → Prop) (c : PyStr) : Prop :=
  c.length ≤ chunk_size + 2 ∨
    ∃ s, P s ∧ c = pyStrip s ∧ chunk_size < s.length

/-- Invariant of the accumulation state `(chunks, current_chunk)`. -/
def chunk_state_ok (chunk_size : ℕ) (P : PyStr → Prop)
    (st : List PyStr × PyStr) : Prop :=
  (∀ c ∈ st.1, chunk_ok chunk_size P c) ∧
  (st.2.length ≤ chunk_size + 2 ∨ (P st.2 ∧ chunk_size < st.2.length))

/-- A chunk whose text exceeds the 8000-character metadata limit. -/
def longChunkExample : ChunkIn :=
  { text := List.replicate 8001 'a', page := some 1 }

/-!
## Theorems
-/

theorem length_dropWhile_le (p : Char → Bool) (l : PyStr) :
    (l.dropWhile p).length ≤ l.length := by
  induction l with
  | nil => simp
  | cons a l ih =>
    by_cases h : p a
    · simp only [List.dropWhile_cons, h, if_true]
      exact Nat.le_succ_of_le ih
    · simp [List.dropWhile_cons, h]

theorem length_pyStrip_le (s : PyStr) : (pyStrip s).length ≤ s.length := by
  unfold pyStrip
  calc (((s.dropWhile pyIsSpace).reverse.dropWhile pyIsSpace).reverse).length
      = ((s.dropWhile pyIsSpace).reverse.dropWhile pyIsSpace).length := by
        rw [List.length_reverse]
    _ ≤ (s.dropWhile pyIsSpace).reverse.length := length_dropWhile_le _ _
    _ = (s.dropWhile pyIsSpace).length := by rw [List.length_reverse]
    _ ≤ s.length := length_dropWhile_le _ _

/-- Single-character `replace` acts pointwise. -/
theorem pyReplaceGo_single (a b : Char) :
    ∀ (fuel : ℕ) (s : PyStr), s.length ≤ fuel →
      pyReplaceGo [a] [b] fuel s = s.map (fun c => if c = a then b else c) := by
  intro fuel
  induction fuel with
  | zero =>
    intro s hs
    have : s = [] := List.eq_nil_of_length_eq_zero (Nat.le_zero.mp hs)
    subst this
    rfl
  | succ f ih =>
    intro s hs
    cases s with
    | nil => rfl
    | cons c rest =>
      have hpre : List.isPrefixOf [a] (c :: rest) = (a == c) := by
        simp [List.isPrefixOf]
      have hlen : rest.length ≤ f := by
        simpa [List.length_cons, Nat.succ_le_succ_iff] using hs
      by_cases hac : a = c
      · subst hac
        simp [pyReplaceGo, hpre, List.drop_zero, ih rest hlen]
      · have : (a == c) = false := by simp [hac]
        simp [pyReplaceGo, hpre, this, ih rest hlen, hac, Ne.symm hac]

theorem pyReplace_single (a b : Char) (s : PyStr) :
    pyReplace [a] [b] s = s.map (fun c => if c = a then b else c) := by
  unfold pyReplace
  simp [pyReplaceGo_single a b s.length s (le_refl _)]

/-- Claim C1, as stated, is false: it asserts that an entry whose
`expires_at` is in the past but that has not been reaped is a miss; but
`get_cached_response` filters only on `question_hash` and `is_valid`, so the
expired-but-valid entry `cacheEntryExpired` is returned as a hit at time
200 > 100. -/
theorem c1_counterexample :
    ¬ (∀ (store : List CacheEntry) (h : PyStr) (now : ℤ) (e : CacheEntry),
        e ∈ store → e.expires_at ≤ now → get_cached_response h store ≠ some e) := by
  intro hclaim
  exact hclaim [cacheEntryExpired] (("h1").toList) 200 cacheEntryExpired
    (by simp) (by decide) (by decide)

/-- Claim C1 (amended): `get_cached_response` returns a hit exactly on the
stored entries with the requested hash and `is_valid == true`; it never
consults `expires_at` (or the current time), so an expired entry that the
background TTL reaper has not yet removed is still returned as a hit. -/
theorem c1_cache_get_ignores_expiry (store : List CacheEntry) (h : PyStr) :
    (∀ e, get_cached_response h store = some e →
        e.is_valid = true ∧ e.question_hash = h) ∧
    ((∃ e ∈ store, e.question_hash = h ∧ e.is_valid = true) →
        (get_cached_response h store).isSome = true) := by
  constructor
  · intro e he
    have hp := List.find?_some he
    simp only [Bool.and_eq_true, beq_iff_eq] at hp
    exact ⟨hp.2, hp.1⟩
  · rintro ⟨e, hmem, hh, hv⟩
    rw [get_cached_response, List.find?_isSome]
    exact ⟨e, hmem, by simp [hh, hv]⟩

/-- Witness for `c1_cache_get_ignores_expiry` at a concrete store: the
expired-but-valid entry is surfaced as a hit. -/
theorem c1_witness :
    (get_cached_response (("h1").toList) [cacheEntryExpired]).isSome = true :=
  (c1_cache_get_ignores_expiry [cacheEntryExpired] (("h1").toList)).2
    ⟨cacheEntryExpired, by simp, by decide, by decide⟩

/-- Claim C2, as stated, is false in its "the completion provider is not
invoked" part: on a cache hit the `chat` endpoint still calls
`llm_service.generate` on a prompt built with the cached answer as context
(chat.py line 106 runs unconditionally on the success path). -/
theorem c2_counterexample :
    ¬ (∀ (cfg : RagConfig) (env : QueryEnv) (query : PyStr)
        (generate : PyStr → PyStr) (c : CacheEntry), env.cached = some c →
        (chat_handler cfg env query generate).2.any CallEvent.isGenerate = false) := by
  intro hclaim
  have h2 := hclaim ragConfigDefault envCached (("state newtons laws").toList)
    (fun _ => ("regenerated").toList) cachedPhysicsEntry rfl
  simp [chat_handler, process_query, envCached, CallEvent.isGenerate] at h2

/-- Claim C2 (amended): with `useCache=true` and a cache hit,
`process_query` returns immediately with `inScope=true` and the cached
answer and sources, and the vector retriever is not called (no `.retrieve`
event — retriever call count zero); however the chat endpoint does NOT skip
generation: it invokes the completion provider exactly once, on a prompt
that embeds the cached answer as the context block. -/
theorem c2_cache_hit_skips_retrieval_not_generation (cfg : RagConfig)
    (env : QueryEnv) (query : PyStr) (generate : PyStr → PyStr)
    (c : CacheEntry) (hc : env.cached = some c) :
    process_query cfg env query true = ((c.answer, c.sources, true), [.cacheGet]) ∧
    chat_handler cfg env query generate =
      ((generate (build_prompt query c.answer []), c.sources),
        [.cacheGet, .llmGenerate (build_prompt query c.answer [])]) := by
  constructor
  · simp [process_query, hc]
  · simp [chat_handler, process_query, hc]

/-- Witness for `c2_cache_hit_skips_retrieval_not_generation` at the
concrete scenario-C environment. -/
theorem c2_witness :
    process_query ragConfigDefault envCached (("state newtons laws").toList) true
      = ((cachedPhysicsEntry.answer, cachedPhysicsEntry.sources, true), [.cacheGet]) ∧
    chat_handler ragConfigDefault envCached (("state newtons laws").toList)
        (fun _ => ("regenerated").toList) =
      (((fun (_ : PyStr) => ("regenerated").toList)
          (build_prompt (("state newtons laws").toList) cachedPhysicsEntry.answer []),
        cachedPhysicsEntry.sources),
        [.cacheGet, .llmGenerate
          (build_prompt (("state newtons laws").toList) cachedPhysicsEntry.answer [])]) :=
  c2_cache_hit_skips_retrieval_not_generation ragConfigDefault envCached
    (("state newtons laws").toList) (fun _ => ("regenerated").toList)
    cachedPhysicsEntry rfl

/-- Claim C3 (confirmed): a candidate with `score < min_relevance_score`
never survives the relevance filter, hence is neither among the results
that become the returned sources (`format_sources` maps exactly over the
filtered list) nor among the results whose text enters the context
(`context_results`, the filtered list truncated to `rerank_top_k`). -/
theorem c3_low_score_filtered_out (cfg : RagConfig) (results : List RResult)
    (r : RResult) (hr : r.score < cfg.min_relevance_score) :
    r ∉ relevant_results cfg results ∧
    r ∉ context_results cfg results ∧
    format_sources (relevant_results cfg results)
      = (relevant_results cfg results).map format_source := by
  have hnot : r ∉ relevant_results cfg results := by
    intro hmem
    have hsc := (List.mem_filter.mp hmem).2
    simp only [decide_eq_true_eq] at hsc
    exact absurd hr (not_lt.mpr hsc)
  refine ⟨hnot, ?_, rfl⟩
  intro hmem
  exact hnot (List.take_subset _ _ hmem)

/-- Witness for `c3_low_score_filtered_out`: the 0.5-score candidate is
excluded even though `top_k = 5` would have room for it. -/
theorem c3_witness :
    lowScoreResult ∉ relevant_results ragConfigDefault [highScoreResult, lowScoreResult] ∧
    lowScoreResult ∉ context_results ragConfigDefault [highScoreResult, lowScoreResult] ∧
    format_sources (relevant_results ragConfigDefault [highScoreResult, lowScoreResult])
      = (relevant_results ragConfigDefault [highScoreResult, lowScoreResult]).map format_source :=
  c3_low_score_filtered_out ragConfigDefault [highScoreResult, lowScoreResult]
    lowScoreResult (by decide)

/-- Claim C4 (confirmed): when the query reaches retrieval (no cache hit,
or cache disabled) and no retrieved candidate meets
`min_relevance_score`, `process_query` returns `inScope=false`, an empty
source list, and the localized refusal string for the language detected
from the query text as the context. -/
theorem c4_out_of_scope_refusal (cfg : RagConfig) (env : QueryEnv)
    (query : PyStr) (use_cache : Bool)
    (hmiss : use_cache = false ∨ env.cached = none)
    (hall : ∀ r ∈ env.retrieved, r.score < cfg.min_relevance_score) :
    (process_query cfg env query use_cache).1
      = (get_out_of_scope_response (detect_language query), [], false) := by
  have hrel : relevant_results cfg env.retrieved = [] := by
    rw [relevant_results, List.filter_eq_nil_iff]
    intro r hrmem
    simp only [decide_eq_true_eq, not_le]
    exact hall r hrmem
  rcases hmiss with h | h
  · subst h
    simp [process_query, process_retrieval, hrel]
  · cases use_cache <;> simp [process_query, process_retrieval, hrel, h]

/-- Witness for `c4_out_of_scope_refusal` at a concrete English query whose
only candidate scores 0.5 < 0.7. -/
theorem c4_witness :
    (process_query ragConfigDefault envNoMatch
        (("explain quantum chromodynamics").toList) true).1
      = (get_out_of_scope_response
          (detect_language (("explain quantum chromodynamics").toList)), [], false) :=
  c4_out_of_scope_refusal ragConfigDefault envNoMatch
    (("explain quantum chromodynamics").toList) true (Or.inr rfl) (by decide)

/-- Claim C6, as stated, is false: it asserts that a timeout is retried
exactly once and that a second timeout yields the "taking too long"
message; but `max_retries = 3`, so after two consecutive timeouts the code
retries a second time, and a successful third attempt returns its text
instead of the message. -/
theorem c6_counterexample :
    ¬ (∀ (outcomes : ℕ → GenOutcome),
        outcomes 0 = .timeout → outcomes 1 = .timeout →
        gemini_generate true outcomes = .returns msg_too_long) := by
  intro hclaim
  have h := hclaim
    (fun i => if i ≤ 1 then .timeout else .ok (("hello").toList))
    (by decide) (by decide)
  exact absurd h (by decide)

/-- Claim C6 (amended): a timed-out request is retried up to twice (three
attempts in total); only when the first three attempts all time out does
`generate` return the user-facing "taking too long" message (returned, not
raised), while a third attempt that succeeds returns its text. -/
theorem c6_timeout_retried_twice (outcomes : ℕ → GenOutcome)
    (h0 : outcomes 0 = .timeout) (h1 : outcomes 1 = .timeout) :
    (outcomes 2 = .timeout →
      gemini_generate true outcomes = .returns msg_too_long) ∧
    (∀ t, outcomes 2 = .ok t → gemini_generate true outcomes = .returns t) := by
  constructor
  · intro h2
    simp [gemini_generate, gemini_generate_loop, max_retries, h0, h1, h2]
  · intro t h2
    simp [gemini_generate, gemini_generate_loop, max_retries, h0, h1, h2]

/-- Witness for `c6_timeout_retried_twice`: three timeouts yield the
too-long message; two timeouts then a success yield the success text. -/
theorem c6_witness :
    gemini_generate true (fun _ => GenOutcome.timeout) = .returns msg_too_long ∧
    gemini_generate true
        (fun i => if i ≤ 1 then GenOutcome.timeout else .ok (("ok").toList))
      = .returns (("ok").toList) :=
  ⟨(c6_timeout_retried_twice (fun _ => GenOutcome.timeout) rfl rfl).1 rfl,
    (c6_timeout_retried_twice
        (fun i => if i ≤ 1 then GenOutcome.timeout else .ok (("ok").toList))
        (by decide) (by decide)).2 (("ok").toList) (by decide)⟩

/-- Claim C7 (confirmed): with no subject, `query_vectors` issues exactly
one `top_k=3` request per namespace in the fixed list (default plus seven
subjects); erroring namespaces are skipped without failing the query; and
the returned list is drawn from the successful namespaces' matches, sorted
descending by score and truncated to `top_k`. -/
theorem c7_fanout_best_effort
    (index_query : Option PyStr → ℕ → Except Unit (List RResult))
    (top_k : ℕ) :
    (query_vectors_fanout index_query top_k).2
      = namespaces_to_query.map (fun ns => (ns_arg ns, 3)) ∧
    (query_vectors_fanout index_query top_k).1.length ≤ top_k ∧
    List.Pairwise (fun a b => b.score ≤ a.score)
      (query_vectors_fanout index_query top_k).1 ∧
    (∀ r ∈ (query_vectors_fanout index_query top_k).1,
      ∃ ns ∈ namespaces_to_query,
        ∃ ms, index_query (ns_arg ns) 3 = .ok ms ∧ r ∈ ms) := by
  refine ⟨rfl, ?_, ?_, ?_⟩
  · exact List.length_take_le _ _
  · have hsorted := @List.sorted_mergeSort RResult
      (fun a b : RResult => decide (b.score ≤ a.score))
      (fun a b c hab hbc => by
        simp only [decide_eq_true_eq] at *
        exact le_trans hbc hab)
      (fun a b => by
        simp only [Bool.or_eq_true, decide_eq_true_eq]
        exact le_total b.score a.score)
      (namespaces_to_query.flatMap (fun ns =>
        match index_query (ns_arg ns) 3 with
        | .ok ms => ms
        | .error _ => []))
    have hp := (List.Pairwise.sublist (List.take_sublist top_k _) hsorted).imp
      (fun hab => by simpa using hab)
    simpa [query_vectors_fanout] using hp
  · intro r hr
    simp only [query_vectors_fanout] at hr
    have hmem : r ∈ namespaces_to_query.flatMap (fun ns =>
        match index_query (ns_arg ns) 3 with
        | .ok ms => ms
        | .error _ => []) :=
      List.mem_mergeSort.mp (List.take_subset _ _ hr)
    obtain ⟨ns, hns, hrms⟩ := List.mem_flatMap.mp hmem
    refine ⟨ns, hns, ?_⟩
    cases hok : index_query (ns_arg ns) 3 with
    | ok ms =>
      rw [hok] at hrms
      exact ⟨ms, rfl, hrms⟩
    | error e =>
      rw [hok] at hrms
      simp at hrms

/-- Witness for `c7_fanout_best_effort` at the concrete oracle (one erroring
namespace) with `top_k = 5`. -/
theorem c7_witness :
    (query_vectors_fanout fanoutIndexExample 5).2
      = namespaces_to_query.map (fun ns => (ns_arg ns, 3)) ∧
    (query_vectors_fanout fanoutIndexExample 5).1.length ≤ 5 ∧
    List.Pairwise (fun a b => b.score ≤ a.score)
      (query_vectors_fanout fanoutIndexExample 5).1 ∧
    (∀ r ∈ (query_vectors_fanout fanoutIndexExample 5).1,
      ∃ ns ∈ namespaces_to_query,
        ∃ ms, fanoutIndexExample (ns_arg ns) 3 = .ok ms ∧ r ∈ ms) :=
  c7_fanout_best_effort fanoutIndexExample 5

set_option maxRecDepth 10000 in
/-- Claim C8, as stated, is false in one boundary respect: the code tests
`len(native_text.strip()) < 500`, not the raw length.  A native text of 500
whitespace characters has raw length 500 (so the claim says OCR must not be
triggered and image text must be appended), yet the code strips it to
length 0 and takes the full-page OCR path. -/
theorem c8_counterexample :
    ¬ (∀ (native image ocr : PyStr), 500 ≤ native.length →
        combine_extracted_text native image ocr
          = (native ++ (if image ≠ [] then sep_images ++ image else []), false)) := by
  intro hclaim
  have h := hclaim (List.replicate 500 ' ') (("img text").toList)
    (("ocr output").toList) (by decide)
  exact absurd h (by decide)

/-- Claim C8 (amended): with the length measured on the whitespace-stripped
native text — `len(native_text.strip())` — the claim holds: below 500 the
full-page OCR output *replaces* the native text (the result is exactly the
OCR text, the native text is discarded); at 500 or more, full-page OCR is
not triggered and non-empty image-OCR text is appended under the separator
marker. -/
theorem c8_ocr_replaces (native image ocr : PyStr) :
    ((pyStrip native).length < 500 →
      combine_extracted_text native image ocr = (ocr, true)) ∧
    (500 ≤ (pyStrip native).length →
      combine_extracted_text native image ocr
        = (native ++ (if image ≠ [] then sep_images ++ image else []), false)) := by
  constructor
  · intro h
    simp [combine_extracted_text, h]
  · intro h
    have hnot : ¬ (pyStrip native).length < 500 := not_lt.mpr h
    simp [combine_extracted_text, hnot]

/-- Witness for `c8_ocr_replaces`: scenario B, a 50-character native text
triggers OCR and the OCR output becomes the ingested text. -/
theorem c8_witness :
    combine_extracted_text (List.replicate 50 'a') (("img text").toList)
        (("ocr output").toList)
      = ((("ocr output").toList), true) :=
  (c8_ocr_replaces (List.replicate 50 'a') (("img text").toList)
    (("ocr output").toList)).1 (by decide)

/-- Claim C9 (confirmed): `get_namespace` maps `None` and `""` to
`"general"`, maps `"Social Science"` to `"social_science"`, and on every
non-empty subject agrees with the spec's description (lowercase,
spaces/hyphens to underscores). -/
theorem c9_namespace_normalization :
    get_namespace none = ("general").toList ∧
    get_namespace (some []) = ("general").toList ∧
    get_namespace (some (("Social Science").toList)) = ("social_science").toList ∧
    ∀ s : PyStr, s ≠ [] → get_namespace (some s) = namespace_spec s := by
  refine ⟨rfl, rfl, by decide, ?_⟩
  intro s hs
  simp only [get_namespace, if_neg hs]
  have e1 : (("-").toList) = ['-'] := rfl
  have e2 : ((" ").toList) = [' '] := rfl
  have e3 : (("_").toList) = ['_'] := rfl
  rw [e1, e2, e3, pyReplace_single, pyReplace_single]
  simp only [namespace_spec, pyLower, List.map_map]
  refine List.map_congr_left ?_
  intro c _
  simp only [Function.comp_apply]
  by_cases h1 : Char.toLower c = ' '
  · simp [h1]
  · by_cases h2 : Char.toLower c = '-' <;> simp [h1, h2]

/-- Witness for `c9_namespace_normalization` on the non-empty subject
`"Social Science"`. -/
theorem c9_witness :
    get_namespace (some (("Social Science").toList))
      = namespace_spec (("Social Science").toList) :=
  c9_namespace_normalization.2.2.2 (("Social Science").toList) (by decide)

theorem add_documents_go_length (emb : PyStr → List ℚ)
    (standard subject chapter source_file : PyStr) :
    ∀ (chunks : List ChunkIn) (i0 : ℕ),
      (add_documents_go emb standard subject chapter source_file i0 chunks).length
        = chunks.length := by
  intro chunks
  induction chunks with
  | nil => intro i0; rfl
  | cons c rest ih =>
    intro i0
    simp [add_documents_go, ih (i0+1)]

theorem add_documents_go_getD_text (emb : PyStr → List ℚ)
    (standard subject chapter source_file : PyStr) :
    ∀ (chunks : List ChunkIn) (i0 i : ℕ), i < chunks.length →
      ((add_documents_go emb standard subject chapter source_file i0 chunks).getD
          i default).text
        = ((chunks.getD i default).text).take 8000 := by
  intro chunks
  induction chunks with
  | nil =>
    intro i0 i h
    simp at h
  | cons c rest ih =>
    intro i0 i h
    cases i with
    | zero => rfl
    | succ n =>
      have hn : n < rest.length := by
        simpa [List.length_cons, Nat.succ_lt_succ_iff] using h
      simp only [add_documents_go, List.getD_cons_succ]
      exact ih (i0+1) n hn

/-- Claim C10 (confirmed): `add_documents` builds one vector per chunk, and
the metadata `text` of the `i`-th vector is the `i`-th chunk's text
truncated to its first 8000 characters; hence it never exceeds 8000
characters, and for a chunk longer than 8000 characters the stored (and
later retrieved) text differs from the full chunk text. -/
theorem c10_metadata_text_truncated (emb : PyStr → List ℚ)
    (chunks : List ChunkIn) (standard subject chapter source_file : PyStr)
    (i : ℕ) (hi : i < chunks.length) :
    (add_documents_vectors emb chunks standard subject chapter source_file).length
      = chunks.length ∧
    ((add_documents_vectors emb chunks standard subject chapter
        source_file).getD i default).text
      = ((chunks.getD i default).text).take 8000 ∧
    ((add_documents_vectors emb chunks standard subject chapter
        source_file).getD i default).text.length ≤ 8000 ∧
    (8000 < (chunks.getD i default).text.length →
      ((add_documents_vectors emb chunks standard subject chapter
          source_file).getD i default).text ≠ (chunks.getD i default).text) := by
  have hlen := add_documents_go_length emb standard subject chapter source_file chunks 0
  have htext := add_documents_go_getD_text emb standard subject chapter source_file
    chunks 0 i hi
  have htext2 : ((add_documents_vectors emb chunks standard subject chapter
      source_file).getD i default).text
      = ((chunks.getD i default).text).take 8000 := htext
  refine ⟨hlen, htext2, ?_, ?_⟩
  · rw [htext2]
    exact List.length_take_le _ _
  · intro hlong heq
    rw [htext2] at heq
    have := congrArg List.length heq
    rw [List.length_take] at this
    omega

theorem flush_ok (chunk_size : ℕ) (P : PyStr → Prop) (chunks : List PyStr)
    (cur : PyStr) (hch : ∀ c ∈ chunks, chunk_ok chunk_size P c)
    (hcur : cur.length ≤ chunk_size + 2 ∨ (P cur ∧ chunk_size < cur.length)) :
    ∀ c ∈ (if cur ≠ [] then chunks ++ [pyStrip cur] else chunks),
      chunk_ok chunk_size P c := by
  intro c hc
  by_cases hne : cur ≠ []
  · rw [if_pos hne] at hc
    rcases List.mem_append.mp hc with h | h
    · exact hch c h
    · have hceq : c = pyStrip cur := List.mem_singleton.mp h
      subst hceq
      rcases hcur with hlen | ⟨hP, hlong⟩
      · exact Or.inl (le_trans (length_pyStrip_le cur) hlen)
      · exact Or.inr ⟨cur, hP, rfl, hlong⟩
  · rw [if_neg hne] at hc
    exact hch c hc

theorem sent_step_ok (chunk_size : ℕ) (P : PyStr → Prop)
    (st : List PyStr × PyStr) (sent : PyStr) (hs : P sent)
    (h : chunk_state_ok chunk_size P st) :
    chunk_state_ok chunk_size P (sent_step chunk_size st sent) := by
  obtain ⟨hch, hcur⟩ := h
  unfold sent_step
  by_cases hov : chunk_size < st.2.length + sent.length
  · rw [if_pos hov]
    refine ⟨flush_ok chunk_size P st.1 st.2 hch hcur, ?_⟩
    by_cases hlong : chunk_size < sent.length
    · exact Or.inr ⟨hs, hlong⟩
    · exact Or.inl (le_trans (not_lt.mp hlong) (Nat.le_add_right _ 2))
  · rw [if_neg hov]
    have hle : st.2.length + sent.length ≤ chunk_size := not_lt.mp hov
    refine ⟨hch, Or.inl ?_⟩
    by_cases hne : st.2 ≠ []
    · rw [if_pos hne]
      simp only [List.length_append]
      have hsp : ((" ").toList).length = 1 := rfl
      omega
    · rw [if_neg hne]
      push_neg at hne
      rw [hne] at hle
      simp only [List.length_nil, Nat.zero_add] at hle
      dsimp only
      omega

theorem sent_fold_ok (chunk_size : ℕ) (P : PyStr → Prop) :
    ∀ (sents : List PyStr), (∀ s ∈ sents, P s) →
      ∀ st, chunk_state_ok chunk_size P st →
        chunk_state_ok chunk_size P (sents.foldl (sent_step chunk_size) st) := by
  intro sents
  induction sents with
  | nil => intro _ st h; exact h
  | cons s rest ih =>
    intro hall st h
    simp only [List.foldl_cons]
    exact ih (fun x hx => hall x (List.mem_cons_of_mem _ hx)) _
      (sent_step_ok chunk_size P st s (hall s (List.mem_cons_self _ _)) h)

theorem para_step_ok (chunk_size : ℕ) (P : PyStr → Prop)
    (st : List PyStr × PyStr) (para0 : PyStr)
    (hps : ∀ s ∈ sentences_of (pyStrip para0), P s)
    (h : chunk_state_ok chunk_size P st) :
    chunk_state_ok chunk_size P (para_step chunk_size st para0) := by
  obtain ⟨hch, hcur⟩ := h
  unfold para_step
  by_cases h0 : pyStrip para0 = []
  · rw [if_pos h0]
    exact ⟨hch, hcur⟩
  · rw [if_neg h0]
    by_cases h1 : chunk_size < st.2.length + (pyStrip para0).length
    · rw [if_pos h1]
      by_cases h2 : chunk_size < (pyStrip para0).length
      · rw [if_pos h2]
        exact sent_fold_ok chunk_size P (sentences_of (pyStrip para0)) hps _
          ⟨flush_ok chunk_size P st.1 st.2 hch hcur, Or.inl (by simp)⟩
      · rw [if_neg h2]
        exact ⟨flush_ok chunk_size P st.1 st.2 hch hcur,
          Or.inl (le_trans (not_lt.mp h2) (Nat.le_add_right _ 2))⟩
    · rw [if_neg h1]
      have hle : st.2.length + (pyStrip para0).length ≤ chunk_size := not_lt.mp h1
      refine ⟨hch, Or.inl ?_⟩
      by_cases hne : st.2 ≠ []
      · rw [if_pos hne]
        simp only [List.length_append]
        have hnn : (("\n\n").toList).length = 2 := rfl
        omega
      · rw [if_neg hne]
        push_neg at hne
        rw [hne] at hle
        simp only [List.length_nil, Nat.zero_add] at hle
        dsimp only
        omega

theorem para_fold_ok (chunk_size : ℕ) (P : PyStr → Prop) :
    ∀ (paras : List PyStr),
      (∀ p ∈ paras, ∀ s ∈ sentences_of (pyStrip p), P s) →
      ∀ st, chunk_state_ok chunk_size P st →
        chunk_state_ok chunk_size P (paras.foldl (para_step chunk_size) st) := by
  intro paras
  induction paras with
  | nil => intro _ st h; exact h
  | cons p rest ih =>
    intro hall st h
    simp only [List.foldl_cons]
    exact ih (fun x hx => hall x (List.mem_cons_of_mem _ hx)) _
      (para_step_ok chunk_size P st p (hall p (List.mem_cons_self _ _)) h)

/-- Claim C5, as stated, is false in its size bound: with
`chunk_size = 10` and zero overlap, the text `"aaaaa\n\nbbbbb"` — whose
every paragraph and sentence has length 5 ≤ 10 — produces the single chunk
`"aaaaa\n\nbbbbb"` of length 12 > 10, because the accumulation guard does
not count the re-inserted `"\n\n"` joiner. -/
theorem c5_counterexample :
    chunk_text (("aaaaa\n\nbbbbb").toList) 10 0 = [("aaaaa\n\nbbbbb").toList] ∧
    (("aaaaa\n\nbbbbb").toList).length = 12 ∧
    (∀ p ∈ paragraphs_of (("aaaaa\n\nbbbbb").toList),
      (pyStrip p).length ≤ 10 ∧
      ∀ s ∈ sentences_of (pyStrip p), s.length ≤ 10) := by
  decide

/-- Claim C5 (amended): `chunk_text "" S O = []`; with `overlap = 0` no
overlap is prepended (the result is exactly the greedy segmentation), and
every produced chunk has length at most `S + 2` (the uncounted `"\n\n"` or
`" "` joiner), except chunks that are a single (stripped) sentence or
one-sentence paragraph whose own length exceeds `S`. -/
theorem c5_chunk_bounds (text : PyStr) (chunk_size overlap : ℕ) :
    chunk_text [] chunk_size overlap = [] ∧
    chunk_text text chunk_size 0 = chunk_segments text chunk_size ∧
    ∀ c ∈ chunk_text text chunk_size 0,
      c.length ≤ chunk_size + 2 ∨
      ∃ p ∈ paragraphs_of text, ∃ s ∈ sentences_of (pyStrip p),
        c = pyStrip s ∧ chunk_size < s.length := by
  have hempty : chunk_text [] chunk_size overlap = [] := by
    simp [chunk_text, chunk_segments]
  have hzero : chunk_text text chunk_size 0 = chunk_segments text chunk_size := by
    simp [chunk_text]
  refine ⟨hempty, hzero, ?_⟩
  rw [hzero]
  intro c hc
  by_cases htext : text = []
  · rw [htext] at hc
    simp [chunk_segments] at hc
  · have hfold : chunk_state_ok chunk_size
        (fun s : PyStr => ∃ p ∈ paragraphs_of text, s ∈ sentences_of (pyStrip p))
        ((paragraphs_of text).foldl (para_step chunk_size) ([], [])) := by
      apply para_fold_ok
      · intro p hp s hs
        exact ⟨p, hp, hs⟩
      · exact ⟨by simp, Or.inl (by simp)⟩
    rw [chunk_segments, if_neg htext] at hc
    have hok := flush_ok chunk_size _ _ _ hfold.1 hfold.2 c hc
    rcases hok with h | ⟨s, ⟨p, hp, hs⟩, hceq, hlong⟩
    · exact Or.inl h
    · exact Or.inr ⟨p, hp, s, hs, hceq, hlong⟩

/-- Witness for `c5_chunk_bounds`: the concrete chunk
`"aaaaa\n\nbbbbb"` produced at `chunk_size = 10` satisfies the amended
bound (its length 12 is within `10 + 2`). -/
theorem c5_witness :
    (("aaaaa\n\nbbbbb").toList).length ≤ 10 + 2 ∨
    ∃ p ∈ paragraphs_of (("aaaaa\n\nbbbbb").toList),
      ∃ s ∈ sentences_of (pyStrip p),
        ("aaaaa\n\nbbbbb").toList = pyStrip s ∧ 10 < s.length :=
  (c5_chunk_bounds (("aaaaa\n\nbbbbb").toList) 10 0).2.2
    (("aaaaa\n\nbbbbb").toList) (by decide)

/-- Witness for `c10_metadata_text_truncated` on a single 8001-character
chunk. -/
theorem c10_witness :
    (add_documents_vectors (fun _ => ([] : List ℚ)) [longChunkExample]
        (("11").toList) (("Physics").toList) (("Ch1").toList)
        (("phy.pdf").toList)).length = [longChunkExample].length ∧
    ((add_documents_vectors (fun _ => ([] : List ℚ)) [longChunkExample]
        (("11").toList) (("Physics").toList) (("Ch1").toList)
        (("phy.pdf").toList)).getD 0 default).text
      = (([longChunkExample].getD 0 default).text).take 8000 ∧
    ((add_documents_vectors (fun _ => ([] : List ℚ)) [longChunkExample]
        (("11").toList) (("Physics").toList) (("Ch1").toList)
        (("phy.pdf").toList)).getD 0 default).text.length ≤ 8000 ∧
    (8000 < ([longChunkExample].getD 0 default).text.length →
      ((add_documents_vectors (fun _ => ([] : List ℚ)) [longChunkExample]
          (("11").toList) (("Physics").toList) (("Ch1").toList)
          (("phy.pdf").toList)).getD 0 default).text
        ≠ ([longChunkExample].getD 0 default).text) :=
  c10_metadata_text_truncated (fun _ => ([] : List ℚ)) [longChunkExample]
    (("11").toList) (("Physics").toList) (("Ch1").toList)
    (("phy.pdf").toList) 0 (by decide)
